import Mathlib

/-!
Shallow embedding of the ingestion pipeline of db-siriusxm (src/db-siriusxm.py):
the record normalizer (scrape_clean), the dedup/upsert engine (db_insert), the
procedural referential-integrity rules (the tr_* triggers of db_create), and the
adaptive polling scheduler of the main loop.  SQLite tables are modelled as
Lean lists of rows; AUTOINCREMENT ids are modelled with explicit counters.
-/

namespace DbSiriusxm

/- Constants from src/db-siriusxm.py lines 16-18. -/

def SLEEP_MIN : Nat := 15
def SLEEP_INCREMENT : Nat := 5
def SLEEP_MAX : Nat := 60

/- Data model: the four tables created by db_create (src lines 50-93). -/

structure Channel where
  number : Nat
  name : String
deriving DecidableEq

structure Artist where
  id : Nat
  name : String
deriving DecidableEq

structure Track where
  id : Nat
  artist : Nat
  title : String
deriving DecidableEq

structure Entry where
  id : Nat
  channel : Nat
  track : Nat
  time : Int
deriving DecidableEq

/-- The persistent store.  `nextArtistId`, `nextTrackId`, `nextEntryId` model
the AUTOINCREMENT primary keys of artists, tracks, entries. -/
structure DB where
  channels : List Channel
  artists : List Artist
  tracks : List Track
  entries : List Entry
  nextArtistId : Nat
  nextTrackId : Nat
  nextEntryId : Nat
deriving DecidableEq

/-- One raw scraped record, the dict built by scrape_dogstar_radio
(src line 234): channel number, channel name, artist name, track title,
unix timestamp. -/
structure Rec where
  channel : Nat
  name : String
  artist : String
  track : String
  time : Int
deriving DecidableEq

/- Record normalizer: scrape_clean (src lines 271-284). -/

/-- The whitespace characters stripped by Python str.strip for ASCII input:
space, tab, newline, carriage return, vertical tab, form feed. -/
def isPySpace (c : Char) : Bool :=
  c == ' ' || c == '\t' || c == '\n' || c == '\r' || c == Char.ofNat 11 || c == Char.ofNat 12

/-- Python str.strip: drop leading and trailing whitespace. -/
def pyStrip (s : String) : String :=
  ⟨((s.toList.dropWhile isPySpace).reverse.dropWhile isPySpace).reverse⟩

/-- The drop condition of scrape_clean (src lines 274-275): a record is removed
when the whitelist is non-empty and the channel is not in it, or the channel is
in the blacklist. -/
def dropRecord (whitelist blacklist : List Nat) (ch : Nat) : Bool :=
  (decide (whitelist.length > 0) && !(whitelist.contains ch)) || blacklist.contains ch

/-- The string cleaning of scrape_clean (src lines 278-283): first, if the name
is exactly empty, synthesize a default name; then strip every string field. -/
def cleanRecord (r : Rec) : Rec :=
  let nm := if r.name = "" then "Channel " ++ toString r.channel else r.name
  { r with name := pyStrip nm, artist := pyStrip r.artist, track := pyStrip r.track }

/-- scrape_clean (src lines 271-284): remove records failing the whitelist or
blacklist, clean the strings of the survivors. -/
def scrape_clean (whitelist blacklist : List Nat) (channels : List Rec) : List Rec :=
  (channels.filter (fun r => !dropRecord whitelist blacklist r.channel)).map cleanRecord

/- Dedup/upsert engine: db_insert (src lines 130-191) and the integrity
triggers it runs into (src lines 69-127). -/

/-- SELECT number, name FROM channels WHERE number = num: channels.number is a
primary key, so the first match is the row. -/
def lookupChannelName (chs : List Channel) (num : Nat) : Option String :=
  (chs.find? (fun c => c.number == num)).map Channel.name

/-- INSERT OR REPLACE INTO channels (number, name) (src line 153): SQLite
REPLACE first deletes every row conflicting on the number primary key or on the
name unique constraint, then inserts the new row.  With the default
recursive_triggers = off, these implicit deletes do not fire delete triggers. -/
def insertOrReplaceChannel (db : DB) (num : Nat) (nm : String) : DB :=
  { db with channels :=
      db.channels.filter (fun c => !(c.number == num) && !(c.name == nm)) ++ [⟨num, nm⟩] }

/-- SELECT _id FROM tracks WHERE artist = aid AND title = title (src line 164). -/
def lookupTrackId (ts : List Track) (aid : Nat) (title : String) : Option Nat :=
  (ts.find? (fun t => t.artist == aid && t.title == title)).map Track.id

/-- The check of trigger tr_entries_insert_channel (src lines 95-100): the
referenced channel number must exist. -/
def channelExists (db : DB) (num : Nat) : Bool :=
  db.channels.any (fun c => c.number == num)

/-- The check of trigger tr_entries_insert_tracks (src lines 112-117): the
referenced track id must exist. -/
def trackExists (db : DB) (tid : Nat) : Bool :=
  db.tracks.any (fun t => t.id == tid)

/-- The dedup query of db_insert (src lines 174-177): is there an entry for
this (channel, track) pair whose time is within the last 10 minutes (600
seconds) of wall-clock now, i.e. time strictly greater than now - 600. -/
def hasRecentEntry (es : List Entry) (ch tid : Nat) (now : Int) : Bool :=
  es.any (fun e => e.channel == ch && e.track == tid && decide (now - 600 < e.time))

/-- The unique index ix_entries_channel_time (src line 93): an insert conflicts
when an entry with the same (channel, time) already exists. -/
def hasTimeConflict (es : List Entry) (ch : Nat) (t : Int) : Bool :=
  es.any (fun e => e.channel == ch && e.time == t)

/-- The loop state of db_insert: the store, the mutable artists dict of src
lines 147 and 162 (name to id), and the entries_inserted counter of src line
131.  channel_writes and artist_writes instrument how many times the INSERT OR
REPLACE of src line 153 and the INSERT of src line 159 execute. -/
structure InsState where
  db : DB
  artists : List (String × Nat)
  entries_inserted : Nat
  channel_writes : Nat
  artist_writes : Nat
deriving DecidableEq

/-- Step 1 of one iteration of the db_insert loop (src lines 150-155): write
the channel row through unless the channelNames snapshot has this number with
exactly this name (the source condition: the looked-up name is None or differs
from the record name).  channelNames is the snapshot dict of src lines
136-140, read once before the loop and never updated inside it. -/
def channelPhase (channelNames : List (Nat × String)) (s : InsState) (r : Rec) :
    InsState :=
  if channelNames.lookup r.channel = some r.name then s
  else { s with db := insertOrReplaceChannel s.db r.channel r.name,
                channel_writes := s.channel_writes + 1 }

/-- Step 2 of one iteration of the db_insert loop (src lines 157-162): the
artist id comes from the mutable dict; on a miss the artist row is created,
its fresh id read back and cached in the dict. -/
def artistPhase (s : InsState) (nm : String) : InsState × Nat :=
  match s.artists.lookup nm with
  | some aid => (s, aid)
  | none =>
    let aid := s.db.nextArtistId
    ({ s with
        db := { s.db with artists := s.db.artists ++ [Artist.mk aid nm],
                          nextArtistId := aid + 1 },
        artists := s.artists ++ [(nm, aid)],
        artist_writes := s.artist_writes + 1 }, aid)

/-- Step 3 of one iteration of the db_insert loop (src lines 164-171): the
track id by live (artist, title) lookup against the store, creating the track
row on a miss. -/
def trackPhase (s : InsState) (aid : Nat) (title : String) : InsState × Nat :=
  match lookupTrackId s.db.tracks aid title with
  | some tid => (s, tid)
  | none =>
    let tid := s.db.nextTrackId
    ({ s with
        db := { s.db with tracks := s.db.tracks ++ [Track.mk tid aid title],
                          nextTrackId := tid + 1 } }, tid)

/-- Steps 1-3 of one iteration of the db_insert loop (src lines 150-171),
returning the updated state and the resolved track id. -/
def resolvePhase (channelNames : List (Nat × String)) (s : InsState) (r : Rec) :
    InsState × Nat :=
  let s₁ := channelPhase channelNames s r
  let p₂ := artistPhase s₁ r.artist
  trackPhase p₂.1 p₂.2 r.track

/-- Steps 4-5 of one iteration of the db_insert loop (src lines 173-187): skip
when a recent entry for the pair exists; otherwise attempt the insert, which
succeeds only when both BEFORE INSERT triggers pass and the (channel, time)
unique index is not violated; an sql.IntegrityError is caught and the record
silently skipped (src lines 184-185). -/
def entryPhase (now : Int) (s : InsState) (ch tid : Nat) (t : Int) : InsState :=
  if hasRecentEntry s.db.entries ch tid now then s
  else if channelExists s.db ch && trackExists s.db tid &&
          !hasTimeConflict s.db.entries ch t then
    { s with
        db := { s.db with entries := s.db.entries ++ [⟨s.db.nextEntryId, ch, tid, t⟩],
                          nextEntryId := s.db.nextEntryId + 1 },
        entries_inserted := s.entries_inserted + 1 }
  else s

/-- One full iteration of the db_insert loop (src lines 149-187). -/
def dbInsertStep (now : Int) (channelNames : List (Nat × String)) (s : InsState)
    (r : Rec) : InsState :=
  let p := resolvePhase channelNames s r
  entryPhase now p.1 r.channel p.2 r.time

/-- The channel_names snapshot of src lines 136-140: number and name of every
stored channel whose number occurs in the batch. -/
def channelSnapshot (db : DB) (batch : List Rec) : List (Nat × String) :=
  (db.channels.filter (fun c => batch.any (fun r => r.channel == c.number))).map
    (fun c => (c.number, c.name))

/-- The artists snapshot of src lines 143-147: name and id of every stored
artist whose name occurs in the batch. -/
def artistSnapshot (db : DB) (batch : List Rec) : List (String × Nat) :=
  (db.artists.filter (fun a => batch.any (fun r => r.artist == a.name))).map
    (fun a => (a.name, a.id))

/-- db_insert (src lines 130-191): read the two snapshots, then process each
record in order; the BEGIN and COMMIT bracketing is invisible to this
single-writer model.  Returns the final loop state; the Python return value is
its entries_inserted field. -/
def db_insert (now : Int) (db : DB) (channels : List Rec) : InsState :=
  channels.foldl (dbInsertStep now (channelSnapshot db channels))
    ⟨db, artistSnapshot db channels, 0, 0, 0⟩

/- Procedural integrity rules: update and delete cascades (src lines 75-127). -/

/-- Trigger tr_tracks_update_id_entries exactly as written (src lines 118-122):
UPDATE entries SET track = NEW._id WHERE channel = OLD._id.  The WHERE clause
tests the channel column of entries against the old track id. -/
def tr_tracks_update_id_entries (es : List Entry) (oldId newId : Nat) : List Entry :=
  es.map (fun e => if e.channel == oldId then { e with track := newId } else e)

/-- UPDATE tracks SET _id = newId WHERE _id = oldId, with the AFTER UPDATE
trigger tr_tracks_update_id_entries firing per updated row. -/
def updateTrackId (db : DB) (oldId newId : Nat) : DB :=
  { db with
      tracks := db.tracks.map (fun t => if t.id == oldId then { t with id := newId } else t),
      entries :=
        if db.tracks.any (fun t => t.id == oldId) then
          tr_tracks_update_id_entries db.entries oldId newId
        else db.entries }

/-- Trigger tr_channels_update_number_entries (src lines 101-105):
UPDATE entries SET channel = NEW.number WHERE channel = OLD.number. -/
def tr_channels_update_number_entries (es : List Entry) (oldNum newNum : Nat) :
    List Entry :=
  es.map (fun e => if e.channel == oldNum then { e with channel := newNum } else e)

/-- Trigger tr_tracks_delete_entries (src lines 123-127): before a track row is
deleted, DELETE FROM entries WHERE track = OLD._id. -/
def tr_tracks_delete_entries (es : List Entry) (tid : Nat) : List Entry :=
  es.filter (fun e => !(e.track == tid))

/-- Trigger tr_artists_delete_tracks (src lines 80-84) together with the nested
firing of tr_tracks_delete_entries: deleting an artist deletes every track
referencing it, and each of those track deletions deletes the entries
referencing that track. -/
def deleteArtist (db : DB) (aid : Nat) : DB :=
  let deadTracks := db.tracks.filter (fun t => t.artist == aid)
  { db with
      artists := db.artists.filter (fun a => !(a.id == aid)),
      tracks := db.tracks.filter (fun t => !(t.artist == aid)),
      entries := deadTracks.foldl (fun es t => tr_tracks_delete_entries es t.id) db.entries }

/-- Trigger tr_channels_delete_entries (src lines 106-110): deleting a channel
deletes every entry referencing its number. -/
def deleteChannel (db : DB) (num : Nat) : DB :=
  { db with
      channels := db.channels.filter (fun c => !(c.number == num)),
      entries := db.entries.filter (fun e => !(e.channel == num)) }

/-- Counts, left to right, the records whose artist name is not among the
already-known names: the first occurrence of a new name counts once and makes
the name known, every later occurrence of the same name counts zero.  This is
the resolve-once discipline the spec requires of artist resolution. -/
def countNewArtists (known : List String) : List Rec → Nat
  | [] => 0
  | r :: rest =>
    if known.contains r.artist then countNewArtists known rest
    else countNewArtists (known ++ [r.artist]) rest + 1

/- Poll scheduler: the main loop, src lines 297-327. -/

/-- One scheduler update of the sleep variable (src lines 312-319): a non-empty
cleaned batch resets sleep to SLEEP_MIN; an empty batch adds SLEEP_INCREMENT,
capped at SLEEP_MAX. -/
def schedStep (sleep : Nat) (scrapedEmpty : Bool) : Nat :=
  if scrapedEmpty then
    let s := sleep + SLEEP_INCREMENT
    if s > SLEEP_MAX then SLEEP_MAX else s
  else SLEEP_MIN

/-- src line 323: sleep_adj = sleep minus the time elapsed since sleep_time.
sleep_time is recorded at src line 308, after scrape_dogstar_radio and
scrape_clean return, so the elapsed term covers only the persistence and
logging work, not the fetch.  Durations are modelled as integer seconds. -/
def sleep_adj (sleep elapsedSinceScrape : Int) : Int :=
  sleep - elapsedSinceScrape

/-- src lines 323-326: the loop waits sleep_adj seconds when it is positive,
otherwise it does not wait. -/
def waitDuration (sleep elapsedSinceScrape : Int) : Int :=
  if sleep_adj sleep elapsedSinceScrape > 0 then sleep_adj sleep elapsedSinceScrape else 0

/-- Total duration of one loop iteration: fetch plus normalize (fetchDur, src
lines 302-307), then persistence plus logging (processDur, src lines 310-320),
then the wait (src lines 323-326), whose elapsed reference point is the moment
after the fetch. -/
def cyclePeriod (fetchDur processDur sleep : Int) : Int :=
  fetchDur + processDur + waitDuration sleep processDur

/-- Modelled from the spec (section 4.4 step 5): the wait the spec describes,
max(0, sleep minus elapsed) with elapsed measured from cycle start, i.e. from
before the Source Adapter fetch. -/
def waitDurationSpec (sleep elapsedFromCycleStart : Int) : Int :=
  max 0 (sleep - elapsedFromCycleStart)

/- Concrete stores and records used by witnesses and counterexamples. -/

def dbEmpty : DB := ⟨[], [], [], [], 1, 1, 1⟩

def dbC1 : DB :=
  ⟨[⟨5, "Jazz"⟩], [⟨1, "Miles"⟩], [⟨1, 1, "So What"⟩], [⟨1, 5, 1, 100⟩], 2, 2, 2⟩

def recC1 : Rec := ⟨5, "Jazz", "Miles", "So What", 100⟩

def recC3a : Rec := ⟨7, "Rock", "A", "T1", 10⟩

def recC3b : Rec := ⟨7, "Rock", "A", "T2", 20⟩

def dbC2 : DB :=
  ⟨[⟨3, "A"⟩, ⟨7, "B"⟩], [⟨1, "X"⟩], [⟨3, 1, "T3"⟩, ⟨5, 1, "T5"⟩],
   [⟨10, 3, 5, 10⟩, ⟨11, 7, 3, 20⟩], 2, 6, 12⟩

def dbC9 : DB :=
  ⟨[⟨5, "Jazz"⟩], [⟨1, "Miles"⟩], [⟨1, 1, "So What"⟩], [⟨1, 5, 1, 950⟩], 2, 2, 2⟩

def recC9 : Rec := ⟨5, "Jazz FM", "Miles", "So What", 999⟩

/- Helper lemmas. -/

lemma pyStrip_eq_empty_of_all_space (s : String)
    (h : ∀ c ∈ s.toList, isPySpace c = true) : pyStrip s = "" := by
  unfold pyStrip
  rw [List.dropWhile_eq_nil_iff.mpr h]
  rfl

lemma schedStep_true_eq (s : Nat) :
    schedStep s true = min (s + SLEEP_INCREMENT) SLEEP_MAX := by
  simp only [schedStep, if_true]
  unfold SLEEP_INCREMENT SLEEP_MAX
  split <;> omega

lemma lookup_isSome_eq_contains (l : List (String × Nat)) (k : String) :
    (l.lookup k).isSome = (l.map Prod.fst).contains k := by
  induction l with
  | nil => rfl
  | cons p t ih =>
    cases hpk : k == p.1 <;>
      simp [List.lookup, List.contains_cons, hpk, ih]

lemma channelPhase_preserves (cn : List (Nat × String)) (s : InsState) (r : Rec) :
    (channelPhase cn s r).db.entries = s.db.entries ∧
    (channelPhase cn s r).db.nextEntryId = s.db.nextEntryId ∧
    (channelPhase cn s r).entries_inserted = s.entries_inserted ∧
    (channelPhase cn s r).artists = s.artists ∧
    (channelPhase cn s r).artist_writes = s.artist_writes := by
  unfold channelPhase insertOrReplaceChannel
  split <;> simp

lemma channelPhase_writes (cn : List (Nat × String)) (s : InsState) (r : Rec) :
    (channelPhase cn s r).channel_writes
      = s.channel_writes + (if cn.lookup r.channel = some r.name then 0 else 1) := by
  unfold channelPhase
  split <;> simp_all

lemma artistPhase_preserves (s : InsState) (nm : String) :
    (artistPhase s nm).1.db.entries = s.db.entries ∧
    (artistPhase s nm).1.db.nextEntryId = s.db.nextEntryId ∧
    (artistPhase s nm).1.entries_inserted = s.entries_inserted ∧
    (artistPhase s nm).1.channel_writes = s.channel_writes := by
  unfold artistPhase
  cases h : s.artists.lookup nm <;> simp [h]

lemma artistPhase_keys (s : InsState) (nm : String) :
    ((artistPhase s nm).1.artists.map Prod.fst
        = if (s.artists.map Prod.fst).contains nm then s.artists.map Prod.fst
          else s.artists.map Prod.fst ++ [nm]) ∧
    ((artistPhase s nm).1.artist_writes
        = s.artist_writes + (if (s.artists.map Prod.fst).contains nm then 0 else 1)) := by
  have hbridge := lookup_isSome_eq_contains s.artists nm
  unfold artistPhase
  cases h : s.artists.lookup nm with
  | some aid =>
    have hc : (s.artists.map Prod.fst).contains nm = true := by
      rw [← hbridge, h]
      rfl
    refine ⟨?_, ?_⟩ <;> rw [if_pos hc] <;> simp
  | none =>
    have hc : (s.artists.map Prod.fst).contains nm = false := by
      rw [← hbridge, h]
      rfl
    have hcc : ¬ ((s.artists.map Prod.fst).contains nm = true) := by
      rw [hc]
      exact Bool.false_ne_true
    refine ⟨?_, ?_⟩ <;> rw [if_neg hcc] <;> simp

lemma trackPhase_preserves (s : InsState) (aid : Nat) (title : String) :
    (trackPhase s aid title).1.db.entries = s.db.entries ∧
    (trackPhase s aid title).1.db.nextEntryId = s.db.nextEntryId ∧
    (trackPhase s aid title).1.entries_inserted = s.entries_inserted ∧
    (trackPhase s aid title).1.artists = s.artists ∧
    (trackPhase s aid title).1.channel_writes = s.channel_writes ∧
    (trackPhase s aid title).1.artist_writes = s.artist_writes := by
  unfold trackPhase
  cases h : lookupTrackId s.db.tracks aid title <;> simp [h]

lemma trackPhase_track_exists (s : InsState) (aid : Nat) (title : String) :
    trackExists (trackPhase s aid title).1.db (trackPhase s aid title).2 = true := by
  unfold trackPhase
  cases h : lookupTrackId s.db.tracks aid title with
  | some tid =>
    unfold lookupTrackId at h
    obtain ⟨t, hfind, hid⟩ := Option.map_eq_some'.mp h
    have hmem : t ∈ s.db.tracks := List.mem_of_find?_eq_some hfind
    simp only [trackExists, List.any_eq_true]
    exact ⟨t, hmem, by simp [hid]⟩
  | none =>
    simp [trackExists, List.any_eq_true]

lemma resolvePhase_preserves (cn : List (Nat × String)) (s : InsState) (r : Rec) :
    (resolvePhase cn s r).1.db.entries = s.db.entries ∧
    (resolvePhase cn s r).1.db.nextEntryId = s.db.nextEntryId ∧
    (resolvePhase cn s r).1.entries_inserted = s.entries_inserted := by
  have h1 := channelPhase_preserves cn s r
  have h2 := artistPhase_preserves (channelPhase cn s r) r.artist
  have h3 := trackPhase_preserves (artistPhase (channelPhase cn s r) r.artist).1
    (artistPhase (channelPhase cn s r) r.artist).2 r.track
  unfold resolvePhase
  refine ⟨?_, ?_, ?_⟩
  · rw [h3.1, h2.1, h1.1]
  · rw [h3.2.1, h2.2.1, h1.2.1]
  · rw [h3.2.2.1, h2.2.2.1, h1.2.2.1]

lemma resolvePhase_track_exists (cn : List (Nat × String)) (s : InsState) (r : Rec) :
    trackExists (resolvePhase cn s r).1.db (resolvePhase cn s r).2 = true := by
  unfold resolvePhase
  exact trackPhase_track_exists _ _ _

lemma entryPhase_preserves (now : Int) (s : InsState) (ch tid : Nat) (t : Int) :
    (entryPhase now s ch tid t).artists = s.artists ∧
    (entryPhase now s ch tid t).channel_writes = s.channel_writes ∧
    (entryPhase now s ch tid t).artist_writes = s.artist_writes := by
  unfold entryPhase
  split
  · simp
  · split <;> simp

lemma entryPhase_len (now : Int) (s : InsState) (ch tid : Nat) (t : Int) :
    (entryPhase now s ch tid t).db.entries.length + s.entries_inserted
      = s.db.entries.length + (entryPhase now s ch tid t).entries_inserted := by
  unfold entryPhase
  split
  · simp
  · split
    · simp
      omega
    · simp

lemma dbInsertStep_len (now : Int) (cn : List (Nat × String)) (s : InsState) (r : Rec) :
    (dbInsertStep now cn s r).db.entries.length + s.entries_inserted
      = s.db.entries.length + (dbInsertStep now cn s r).entries_inserted := by
  have hres := resolvePhase_preserves cn s r
  have hr1 : (resolvePhase cn s r).1.db.entries.length = s.db.entries.length := by
    rw [hres.1]
  have hr2 := hres.2.2
  have hlen := entryPhase_len now (resolvePhase cn s r).1 r.channel (resolvePhase cn s r).2 r.time
  simp only [dbInsertStep]
  omega

lemma foldl_len (now : Int) (cn : List (Nat × String)) (l : List Rec) :
    ∀ s : InsState,
      (l.foldl (dbInsertStep now cn) s).db.entries.length + s.entries_inserted
        = s.db.entries.length + (l.foldl (dbInsertStep now cn) s).entries_inserted := by
  induction l with
  | nil => intro s; rfl
  | cons r l ih =>
    intro s
    have hstep := dbInsertStep_len now cn s r
    have hrest := ih (dbInsertStep now cn s r)
    simp only [List.foldl_cons]
    omega

lemma resolvePhase_channel_writes (cn : List (Nat × String)) (s : InsState) (r : Rec) :
    (resolvePhase cn s r).1.channel_writes
      = s.channel_writes + (if cn.lookup r.channel = some r.name then 0 else 1) := by
  have h1 := channelPhase_writes cn s r
  have h2 := (artistPhase_preserves (channelPhase cn s r) r.artist).2.2.2
  have h3 := (trackPhase_preserves (artistPhase (channelPhase cn s r) r.artist).1
    (artistPhase (channelPhase cn s r) r.artist).2 r.track).2.2.2.2.1
  simp only [resolvePhase]
  rw [h3, h2, h1]

lemma dbInsertStep_channel_writes (now : Int) (cn : List (Nat × String)) (s : InsState)
    (r : Rec) :
    (dbInsertStep now cn s r).channel_writes
      = s.channel_writes + (if cn.lookup r.channel = some r.name then 0 else 1) := by
  have h4 := (entryPhase_preserves now (resolvePhase cn s r).1 r.channel
    (resolvePhase cn s r).2 r.time).2.1
  have h5 := resolvePhase_channel_writes cn s r
  simp only [dbInsertStep]
  rw [h4, h5]

lemma foldl_channel_writes (now : Int) (cn : List (Nat × String)) (l : List Rec) :
    ∀ s : InsState,
      (l.foldl (dbInsertStep now cn) s).channel_writes
        = s.channel_writes
          + (l.filter (fun r => decide (¬ cn.lookup r.channel = some r.name))).length := by
  induction l with
  | nil => intro s; rfl
  | cons r l ih =>
    intro s
    have hstep := dbInsertStep_channel_writes now cn s r
    have hrest := ih (dbInsertStep now cn s r)
    simp only [List.foldl_cons, List.filter_cons]
    by_cases hc : cn.lookup r.channel = some r.name
    · rw [if_pos hc] at hstep
      simp [hc, hrest, hstep]
    · rw [if_neg hc] at hstep
      simp [hc, hrest, hstep]
      omega

lemma resolvePhase_artist_keys (cn : List (Nat × String)) (s : InsState) (r : Rec) :
    ((resolvePhase cn s r).1.artists.map Prod.fst
        = if (s.artists.map Prod.fst).contains r.artist then s.artists.map Prod.fst
          else s.artists.map Prod.fst ++ [r.artist]) ∧
    ((resolvePhase cn s r).1.artist_writes
        = s.artist_writes
          + (if (s.artists.map Prod.fst).contains r.artist then 0 else 1)) := by
  have h1 := channelPhase_preserves cn s r
  have h2 := artistPhase_keys (channelPhase cn s r) r.artist
  have h3 := trackPhase_preserves (artistPhase (channelPhase cn s r) r.artist).1
    (artistPhase (channelPhase cn s r) r.artist).2 r.track
  simp only [resolvePhase]
  constructor
  · rw [h3.2.2.2.1, h2.1, h1.2.2.2.1]
  · rw [h3.2.2.2.2.2, h2.2, h1.2.2.2.2, h1.2.2.2.1]

lemma dbInsertStep_artist_keys (now : Int) (cn : List (Nat × String)) (s : InsState)
    (r : Rec) :
    ((dbInsertStep now cn s r).artists.map Prod.fst
        = if (s.artists.map Prod.fst).contains r.artist then s.artists.map Prod.fst
          else s.artists.map Prod.fst ++ [r.artist]) ∧
    ((dbInsertStep now cn s r).artist_writes
        = s.artist_writes
          + (if (s.artists.map Prod.fst).contains r.artist then 0 else 1)) := by
  have h4 := entryPhase_preserves now (resolvePhase cn s r).1 r.channel
    (resolvePhase cn s r).2 r.time
  have h5 := resolvePhase_artist_keys cn s r
  simp only [dbInsertStep]
  exact ⟨by rw [h4.1, h5.1], by rw [h4.2.2, h5.2]⟩

lemma foldl_artist_writes (now : Int) (cn : List (Nat × String)) (l : List Rec) :
    ∀ s : InsState,
      (l.foldl (dbInsertStep now cn) s).artist_writes
        = s.artist_writes + countNewArtists (s.artists.map Prod.fst) l := by
  induction l with
  | nil => intro s; rfl
  | cons r l ih =>
    intro s
    have hstep := dbInsertStep_artist_keys now cn s r
    have hrest := ih (dbInsertStep now cn s r)
    simp only [List.foldl_cons, countNewArtists]
    by_cases hc : (s.artists.map Prod.fst).contains r.artist = true
    · rw [if_pos hc] at hstep ⊢
      rw [hrest, hstep.1, hstep.2, if_pos hc]
      omega
    · rw [if_neg hc] at hstep ⊢
      rw [hrest, hstep.1, hstep.2, if_neg hc]
      omega

lemma mem_foldl_tr_tracks_delete (ts : List Track) (e : Entry) :
    ∀ es : List Entry,
      (e ∈ ts.foldl (fun acc t => tr_tracks_delete_entries acc t.id) es ↔
        e ∈ es ∧ ∀ t ∈ ts, ¬ e.track = t.id) := by
  induction ts with
  | nil => intro es; simp
  | cons t ts ih =>
    intro es
    rw [List.foldl_cons, ih]
    simp only [tr_tracks_delete_entries, List.mem_filter, Bool.not_eq_true',
      beq_eq_false_iff_ne, ne_eq, List.mem_cons]
    constructor
    · rintro ⟨⟨he, hne⟩, hall⟩
      refine ⟨he, fun t' ht' => ?_⟩
      rcases ht' with h | h
      · rw [h]
        exact hne
      · exact hall t' h
    · rintro ⟨he, hall⟩
      exact ⟨⟨he, hall t (Or.inl rfl)⟩, fun t' ht' => hall t' (Or.inr ht')⟩

/- The claims. -/

/-- Claim C7: the normalizer drops a record exactly when the allow-set is
non-empty and the channel number is absent from it, or the channel number is
in the deny-set; in particular a channel in the deny-set is always dropped. -/
theorem c7_drop_iff (wl bl : List Nat) (r : Rec) :
    (scrape_clean wl bl [r] = [] ↔ ((wl ≠ [] ∧ r.channel ∉ wl) ∨ r.channel ∈ bl)) ∧
    (r.channel ∈ bl → scrape_clean wl bl [r] = []) := by
  have h : scrape_clean wl bl [r] = [] ↔ dropRecord wl bl r.channel = true := by
    unfold scrape_clean
    cases hdr : dropRecord wl bl r.channel <;> simp [hdr]
  have h2 : dropRecord wl bl r.channel = true ↔
      ((wl ≠ [] ∧ r.channel ∉ wl) ∨ r.channel ∈ bl) := by
    unfold dropRecord
    simp [List.length_pos]
  constructor
  · rw [h, h2]
  · intro hb
    rw [h, h2]
    exact Or.inr hb

/-- Witness for C7 at a concrete input: channel 5 is in the deny-set and in
the allow-set, and is dropped. -/
theorem c7_drop_iff_witness :
    scrape_clean [5] [5] [⟨5, "x", "a", "b", 0⟩] = [] :=
  (c7_drop_iff [5] [5] ⟨5, "x", "a", "b", 0⟩).2 (by decide)

/-- Claim C10: a non-empty channel name consisting only of whitespace is
normalized to the empty string (no synthesized default), and the synthesized
default name arises only when the scraped name is exactly the empty string. -/
theorem c10_whitespace_name (r : Rec) :
    (r.name ≠ "" → (∀ c ∈ r.name.toList, isPySpace c = true) →
      (cleanRecord r).name = "") ∧
    (r.name = "" →
      (cleanRecord r).name = pyStrip ("Channel " ++ toString r.channel)) := by
  constructor
  · intro h1 h2
    simp only [cleanRecord, if_neg h1]
    exact pyStrip_eq_empty_of_all_space _ h2
  · intro h1
    simp [cleanRecord, h1]

/-- Witness for C10 at a concrete input: the name of one space becomes the
empty string, not a synthesized default. -/
theorem c10_whitespace_name_witness :
    (cleanRecord ⟨5, " ", "a", "b", 0⟩).name = "" :=
  (c10_whitespace_name ⟨5, " ", "a", "b", 0⟩).1 (by decide) (by decide)

/-- Claim C5: from SLEEP_MIN, N consecutive empty cycles leave the sleep
variable at min (SLEEP_MIN + SLEEP_INCREMENT * N) SLEEP_MAX; a non-empty cycle
resets it to SLEEP_MIN; one step from anywhere in [SLEEP_MIN, SLEEP_MAX] stays
in [SLEEP_MIN, SLEEP_MAX]. -/
theorem c5_backoff_bounds (n s : Nat) (b : Bool)
    (h1 : SLEEP_MIN ≤ s) (h2 : s ≤ SLEEP_MAX) :
    ((fun x => schedStep x true)^[n] SLEEP_MIN
        = min (SLEEP_MIN + SLEEP_INCREMENT * n) SLEEP_MAX) ∧
    schedStep s false = SLEEP_MIN ∧
    SLEEP_MIN ≤ schedStep s b ∧ schedStep s b ≤ SLEEP_MAX := by
  refine ⟨?_, by simp [schedStep], ?_, ?_⟩
  · induction n with
    | zero => simp [SLEEP_MIN, SLEEP_INCREMENT, SLEEP_MAX]
    | succ k ih =>
      rw [Function.iterate_succ_apply', ih, schedStep_true_eq]
      unfold SLEEP_MIN SLEEP_INCREMENT SLEEP_MAX
      omega
  · cases b
    · simp [schedStep, SLEEP_MIN]
    · rw [schedStep_true_eq]
      unfold SLEEP_MIN SLEEP_INCREMENT SLEEP_MAX at *
      omega
  · cases b
    · simp [schedStep, SLEEP_MIN, SLEEP_MAX]
    · rw [schedStep_true_eq]
      unfold SLEEP_MIN SLEEP_INCREMENT SLEEP_MAX at *
      omega

/-- Witness for C5 at concrete inputs: three empty cycles from SLEEP_MIN, and
one step from 20. -/
theorem c5_backoff_bounds_witness :
    ((fun x => schedStep x true)^[3] SLEEP_MIN
        = min (SLEEP_MIN + SLEEP_INCREMENT * 3) SLEEP_MAX) ∧
    schedStep 20 false = SLEEP_MIN ∧
    SLEEP_MIN ≤ schedStep 20 true ∧ schedStep 20 true ≤ SLEEP_MAX :=
  c5_backoff_bounds 3 20 true (by decide) (by decide)

/-- Counterexample to C6: in a cycle with a 3 second fetch, zero persistence
time and sleep 15, the wait the code performs (15) differs from the claimed
max(0, sleep minus elapsed-from-cycle-start) (12), and the full cycle period
is sleep plus the fetch duration, not sleep. -/
theorem c6_counterexample :
    waitDuration 15 0 = 15 ∧ waitDurationSpec 15 (3 + 0) = 12 ∧
    waitDuration 15 0 ≠ waitDurationSpec 15 (3 + 0) ∧
    cyclePeriod 3 0 15 = 15 + 3 := by
  decide

/-- Claim C6 amended: the reference time is recorded after fetch and
normalize, so the wait equals max(0, sleep minus the persistence duration)
and the full cycle period equals the fetch duration plus max(persistence
duration, sleep) - it trends toward sleep plus fetch overhead. -/
theorem c6_amended_timing (f p s : Int) :
    waitDuration s p = max 0 (s - p) ∧ cyclePeriod f p s = f + max p s := by
  unfold cyclePeriod waitDuration sleep_adj
  refine ⟨?_, ?_⟩
  · split <;> omega
  · split <;> omega

/-- Claim C2, evaluated at a failing input: renumbering track 3 to 9 in a
store where entry 10 references channel 3 and track 5, and entry 11 references
channel 7 and track 3.  The trigger as written matches on the entries channel
column, so the unrelated entry 10 is re-pointed to track 9 while the dependent
entry 11 keeps the now-dangling track id 3. -/
theorem c2_update_cascade_bug :
    (updateTrackId dbC2 3 9).tracks = [⟨9, 1, "T3"⟩, ⟨5, 1, "T5"⟩] ∧
    (updateTrackId dbC2 3 9).entries = [⟨10, 3, 9, 10⟩, ⟨11, 7, 3, 20⟩] ∧
    (∃ e ∈ (updateTrackId dbC2 3 9).entries, e.track = 3) ∧
    trackExists (updateTrackId dbC2 3 9) 3 = false := by
  decide

/-- Counterexample to C1: the store holds a 15-minutes-old entry for
(channel 5, track 1) with timestamp 100, and the incoming record carries the
same pair and the same timestamp 100.  No entry for the pair is within 10
minutes of now = 1000, yet db_insert appends nothing: the insert is rejected
by the (channel, time) unique index. -/
theorem c1_counterexample :
    hasRecentEntry dbC1.entries recC1.channel
        (resolvePhase (channelSnapshot dbC1 [recC1])
          ⟨dbC1, artistSnapshot dbC1 [recC1], 0, 0, 0⟩ recC1).2 1000 = false ∧
    (db_insert 1000 dbC1 [recC1]).entries_inserted = 0 ∧
    (db_insert 1000 dbC1 [recC1]).db.entries = dbC1.entries := by
  decide

/-- Counterexample to C3: a batch of two records for the same previously
unknown channel number 7 makes db_insert execute the channel write-through
twice, because the channel_names snapshot is never updated inside the loop. -/
theorem c3_counterexample :
    recC3a.channel = recC3b.channel ∧
    (db_insert 100 dbEmpty [recC3a, recC3b]).channel_writes = 2 := by
  decide

/-- Claim C9: a non-empty batch on which db_insert returns 0 while still
changing the store: the single record hits the dedup window (entry at time
950, now 1000), so no entry is appended, yet the channel name differs from
the stored one and is overwritten. -/
theorem c9_zero_return_state_change :
    ([recC9] ≠ ([] : List Rec)) ∧
    (db_insert 1000 dbC9 [recC9]).entries_inserted = 0 ∧
    (db_insert 1000 dbC9 [recC9]).db.channels ≠ dbC9.channels := by
  decide

/-- Claim C4: deleting an artist removes exactly the tracks referencing it and
exactly the entries referencing those tracks (and the artist row itself);
deleting a channel removes exactly the entries referencing its number. -/
theorem c4_delete_cascades (db : DB) (aid num : Nat) :
    (∀ t : Track, t ∈ (deleteArtist db aid).tracks ↔ t ∈ db.tracks ∧ ¬ t.artist = aid) ∧
    (∀ a : Artist, a ∈ (deleteArtist db aid).artists ↔ a ∈ db.artists ∧ ¬ a.id = aid) ∧
    (∀ e : Entry, e ∈ (deleteArtist db aid).entries ↔
        e ∈ db.entries ∧ ∀ t ∈ db.tracks, t.artist = aid → ¬ e.track = t.id) ∧
    (∀ e : Entry, e ∈ (deleteChannel db num).entries ↔
        e ∈ db.entries ∧ ¬ e.channel = num) := by
  refine ⟨?_, ?_, ?_, ?_⟩
  · intro t
    simp [deleteArtist, List.mem_filter]
  · intro a
    simp [deleteArtist, List.mem_filter]
  · intro e
    unfold deleteArtist
    rw [mem_foldl_tr_tracks_delete]
    simp [List.mem_filter]
  · intro e
    simp [deleteChannel, List.mem_filter]

/-- Claim C8: the value db_insert returns counts exactly the entries actually
appended to the store, and a record whose entry insert is rejected by the
integrity checks or the (channel, time) uniqueness constraint leaves the
state untouched, so the remaining records of the batch are processed from an
unchanged state. -/
theorem c8_count_skipped (now : Int) (db : DB) (batch : List Rec) (s : InsState)
    (ch tid : Nat) (t : Int) :
    ((db_insert now db batch).db.entries.length
        = db.entries.length + (db_insert now db batch).entries_inserted) ∧
    (hasRecentEntry s.db.entries ch tid now = false →
     (channelExists s.db ch && trackExists s.db tid &&
        !hasTimeConflict s.db.entries ch t) = false →
      entryPhase now s ch tid t = s) := by
  constructor
  · have h := foldl_len now (channelSnapshot db batch) batch
      ⟨db, artistSnapshot db batch, 0, 0, 0⟩
    dsimp only at h
    unfold db_insert
    omega
  · intro h1 h2
    unfold entryPhase
    rw [h1, h2]
    rfl

/-- Witness for C8 at concrete inputs: an empty batch keeps the count in step
with the appended entries, and a rejected insert into an empty store (the
referenced channel is absent) leaves the state unchanged. -/
theorem c8_count_skipped_witness :
    ((db_insert 0 dbEmpty []).db.entries.length
        = dbEmpty.entries.length + (db_insert 0 dbEmpty []).entries_inserted) ∧
    entryPhase 0 ⟨dbEmpty, [], 0, 0, 0⟩ 1 1 0 = ⟨dbEmpty, [], 0, 0, 0⟩ :=
  ⟨(c8_count_skipped 0 dbEmpty [] ⟨dbEmpty, [], 0, 0, 0⟩ 1 1 0).1,
   (c8_count_skipped 0 dbEmpty [] ⟨dbEmpty, [], 0, 0, 0⟩ 1 1 0).2 (by decide) (by decide)⟩

/-- Claim C3 amended: duplicate artist names in a batch are resolved only
once, but duplicate channel numbers are not.  Exactly: the artist create runs
once per distinct artist name that is not already known (countNewArtists
charges only the first occurrence of each name), while the channel
write-through runs once for every record whose channel number is missing from
the start-of-batch snapshot or mapped there to a different name, hence
repeatedly for duplicate occurrences of such a channel number. -/
theorem c3_amended_resolution (now : Int) (db : DB) (batch : List Rec) :
    ((db_insert now db batch).channel_writes
        = (batch.filter
            (fun r => decide (¬ (channelSnapshot db batch).lookup r.channel
                = some r.name))).length) ∧
    ((db_insert now db batch).artist_writes
        = countNewArtists ((artistSnapshot db batch).map Prod.fst) batch) := by
  have hc := foldl_channel_writes now (channelSnapshot db batch) batch
    ⟨db, artistSnapshot db batch, 0, 0, 0⟩
  have ha := foldl_artist_writes now (channelSnapshot db batch) batch
    ⟨db, artistSnapshot db batch, 0, 0, 0⟩
  dsimp only at hc ha
  unfold db_insert
  constructor
  · rw [hc]
    omega
  · rw [ha]
    omega

/-- Claim C1 amended: when the store already holds an entry for the resolved
(channel, track) pair dated within 10 minutes of wall-clock now, the record is
skipped and nothing is appended; when it holds none, the entry is appended -
provided the insert passes the integrity checks, namely the referenced
channel row still exists after resolution and no stored entry already has the
same (channel, time). -/
theorem c1_dedup_window (now : Int) (cn : List (Nat × String)) (s : InsState) (r : Rec) :
    (hasRecentEntry s.db.entries r.channel (resolvePhase cn s r).2 now = true →
      (dbInsertStep now cn s r).db.entries = s.db.entries ∧
      (dbInsertStep now cn s r).entries_inserted = s.entries_inserted) ∧
    (hasRecentEntry s.db.entries r.channel (resolvePhase cn s r).2 now = false →
     channelExists (resolvePhase cn s r).1.db r.channel = true →
     hasTimeConflict s.db.entries r.channel r.time = false →
      (dbInsertStep now cn s r).db.entries
        = s.db.entries ++ [⟨s.db.nextEntryId, r.channel, (resolvePhase cn s r).2, r.time⟩] ∧
      (dbInsertStep now cn s r).entries_inserted = s.entries_inserted + 1) := by
  have hres := resolvePhase_preserves cn s r
  have htr := resolvePhase_track_exists cn s r
  simp only [dbInsertStep]
  constructor
  · intro h1
    unfold entryPhase
    rw [hres.1, h1]
    exact ⟨hres.1, hres.2.2⟩
  · intro h1 h2 h3
    unfold entryPhase
    rw [hres.1, h1, h2, htr, h3]
    simp only [Bool.not_false, Bool.and_true, Bool.true_and, if_true, if_false]
    rw [if_neg (by simp)]
    simp [hres.1, hres.2.1, hres.2.2]

/-- Witness for C1 at a concrete input: a fresh record against the empty
store passes the dedup check and the integrity checks, and exactly one entry
is appended. -/
theorem c1_dedup_window_witness :
    (dbInsertStep 1000 [] ⟨dbEmpty, [], 0, 0, 0⟩
        ⟨5, "Jazz", "Miles", "So What", 1000⟩).db.entries
      = dbEmpty.entries
        ++ [⟨dbEmpty.nextEntryId, 5,
             (resolvePhase [] ⟨dbEmpty, [], 0, 0, 0⟩
               ⟨5, "Jazz", "Miles", "So What", 1000⟩).2, 1000⟩] ∧
    (dbInsertStep 1000 [] ⟨dbEmpty, [], 0, 0, 0⟩
        ⟨5, "Jazz", "Miles", "So What", 1000⟩).entries_inserted = 0 + 1 :=
  (c1_dedup_window 1000 [] ⟨dbEmpty, [], 0, 0, 0⟩ ⟨5, "Jazz", "Miles", "So What", 1000⟩).2
    (by decide) (by decide) (by decide)

end DbSiriusxm
